import Mathlib

/-!
Verification of the task-lifecycle orchestrator of the image-generator agent
(`src/main.py`, `ImageGeneratorAgent.run`), shallowly embedded in Lean 4.

The external collaborators (generation capability, artifact store, task
protocol gateway) are modelled as oracles supplied in an `Env`; `run`
produces the trace of external calls it makes together with its outcome
(normal return, or an escaping exception).
-/

/-- Log levels used by `TaskLog` in `main.py` (`level='info'` / `level='error'`). -/
inductive Level where
  | info
  | error
deriving DecidableEq, Repr

/-- Modelled from the spec: the gateway library's execution-status enum
(`payments_py.data_models.AgentExecutionStatus`) is not part of the sources;
the spec names the statuses Pending, Completed and Failed, compared through
their string `value`. -/
inductive AgentExecutionStatus where
  | Pending
  | Completed
  | Failed
deriving DecidableEq, Repr

/-- The string value of a status, as used in comparisons such as
`step['step_status'] != AgentExecutionStatus.Pending.value`. -/
def AgentExecutionStatus.value : AgentExecutionStatus → String
  | .Pending => "Pending"
  | .Completed => "Completed"
  | .Failed => "Failed"

/-- The fields of the fetched step that `run` reads: `step['task_id']`,
`step['step_status']` and `step.get('input_query', '')` (absent field
modelled as `none`). -/
structure Step where
  task_id : String
  step_status : String
  input_query : Option String
deriving DecidableEq, Repr

/-- The event payload delivered to `run`: `data['step_id']`, `data['task_id']`,
`data['did']`. -/
structure EventData where
  step_id : String
  task_id : String
  did : String
deriving DecidableEq, Repr

/-- A `TaskLog` entry as constructed in `main.py`. -/
structure TaskLog where
  task_id : String
  message : String
  level : Level
  task_status : Option String
deriving DecidableEq, Repr

/-- The argument record of the single `update_step` call in `main.py`
(the outer `did`/`task_id`/`step_id` arguments together with the fields of
the step dictionary passed as `step=`). -/
structure StepUpdate where
  did : String
  task_id : String
  step_id : String
  step_status : String
  output : String
  is_last : Bool
  output_artifacts : List String
deriving DecidableEq, Repr

/-- The exceptions the collaborators may raise: the gateway's `ProtocolError`
and the generation/upload failures.  Each carries its `str(e)` message; the
generic `except Exception` clause in `run` catches every one of them. -/
inductive Exc where
  | protocolError (msg : String)
  | genError (msg : String)
  | uploadError (msg : String)
deriving DecidableEq, Repr

/-- `str(e)` of a caught exception, interpolated into the error-log message. -/
def Exc.message : Exc → String
  | .protocolError m => m
  | .genError m => m
  | .uploadError m => m

/-- One external call made by `run`, in the order issued. -/
inductive Call where
  | log (entry : TaskLog)
  | update (u : StepUpdate)
  | generate (prompt : String)
  | upload (filename : String)
deriving DecidableEq, Repr

/-- The oracle behaviour of the external collaborators during one execution of
`run`: the result of `get_step`, of `generate_image` (an opaque image token on
success), of `upload_image_and_get_url` (a URL on success), of the n-th
`log_task` call, and of the `update_step` call. -/
structure Env where
  getStep : String → Except Exc Step
  genResult : Except Exc Nat
  uploadResult : Nat → String → Except Exc String
  logResult : Nat → Except Exc Unit
  updateResult : Except Exc Unit

/-- What one execution of `run` did: the external calls it issued (a call is
recorded even when it raises) and whether it returned normally or let an
exception escape. -/
structure RunResult where
  trace : List Call
  outcome : Except Exc Unit
deriving Repr

/-! ## Input normalization (`main.py` lines 62–76) -/

/-- Python's `str.startswith`, on the character lists underlying the strings. -/
def pyStartsWith (s pre : String) : Bool :=
  pre.data.isPrefixOf s.data

/-- Python's `str.endswith`. -/
def pyEndsWith (s suf : String) : Bool :=
  suf.data.isSuffixOf s.data

/-- JSON insignificant whitespace, also the characters stripped by
Python's `str.strip()`. -/
def isJsonWs (c : Char) : Bool :=
  c = ' ' || c = '\n' || c = '\t' || c = '\r'

/-- Drop leading whitespace. -/
def skipWs (cs : List Char) : List Char :=
  cs.dropWhile isJsonWs

/-- Modelled from the spec: the body of a JSON string literal (escape
sequences omitted), returning the content and the remainder after the
closing quote.  The stdlib `json.loads` is not part of the sources. -/
def jsonStringBody : List Char → Option (List Char × List Char)
  | [] => none
  | '"' :: rest => some ([], rest)
  | c :: rest =>
    match jsonStringBody rest with
    | some p => some (c :: p.1, p.2)
    | none => none

/-- Modelled from the spec: a JSON string literal. -/
def jsonString : List Char → Option (List Char × List Char)
  | '"' :: rest => jsonStringBody rest
  | _ => none

/-- Modelled from the spec: a JSON value of the accepted payload format (a
string, or an integer whose Python `str()` form is its digit text). -/
def jsonValue (cs : List Char) : Option (String × List Char) :=
  match jsonString cs with
  | some p => some (⟨p.1⟩, p.2)
  | none =>
    let digits := cs.takeWhile (fun c => c.isDigit)
    if digits = [] then none else some (⟨digits⟩, cs.dropWhile (fun c => c.isDigit))

/-- Modelled from the spec: the members of a flat JSON object, after the
opening brace; `fuel` bounds the recursion by the input length. -/
def jsonMembers : Nat → List Char → Option (List (String × String) × List Char)
  | 0, _ => none
  | fuel + 1, cs =>
    match jsonString (skipWs cs) with
    | none => none
    | some (key, rest1) =>
      match skipWs rest1 with
      | ':' :: rest2 =>
        match jsonValue (skipWs rest2) with
        | none => none
        | some (v, rest3) =>
          match skipWs rest3 with
          | ',' :: rest4 =>
            match jsonMembers fuel rest4 with
            | some (pairs, rest5) => some ((⟨key⟩, v) :: pairs, rest5)
            | none => none
          | '\x7d' :: rest4 => some ([(⟨key⟩, v)], rest4)
          | _ => none
      | _ => none

/-- Modelled from the spec: `json.loads` restricted to the accepted payload
format, "a flat JSON object of string-convertible values" — string keys and
string or integer values, no nesting, no escape sequences.  `none` is a
`json.JSONDecodeError`. -/
def parseFlatJson (s : String) : Option (List (String × String)) :=
  match skipWs s.data with
  | '\x7b' :: rest =>
    match skipWs rest with
    | '\x7d' :: rest1 => if skipWs rest1 = [] then some [] else none
    | _ =>
      match jsonMembers (rest.length + 1) rest with
      | some (pairs, rest1) => if skipWs rest1 = [] then some pairs else none
      | none => none
  | _ => none

/-- `'\n'.join([f"{k}: {v}" for k, v in character_prompt_dict.items()])`
(`main.py` line 70). -/
def renderPairs (pairs : List (String × String)) : String :=
  String.intercalate "\n" (pairs.map (fun kv => kv.1 ++ ": " ++ kv.2))

/-- The brace sniff of `main.py` line 66:
`input_query.startswith('\x7b') and input_query.endswith('\x7d')`. -/
def isJsonShaped (q : String) : Bool :=
  pyStartsWith q "\x7b" && pyEndsWith q "\x7d"

/-- The input normalizer (`main.py` lines 66–76): a JSON-shaped payload is
parsed and rendered as key-value lines, a parse failure is absorbed into the
null description (`none`), and any other payload passes through unchanged. -/
def normalizeInput (input_query : String) : Option String :=
  if isJsonShaped input_query then
    match parseFlatJson input_query with
    | some d => some (renderPairs d)
    | none => none
  else
    some input_query

/-- Sanity evaluations of the modelled parser and normalizer. -/
theorem parse_and_normalize_eval :
    parseFlatJson "\x7b\x7d" = some []
    ∧ parseFlatJson "\x7bnot valid json\x7d" = none
    ∧ normalizeInput "a knight in silver armor" = some "a knight in silver armor"
    ∧ normalizeInput "\x7b\"hair\": \"red\", \"eyes\": \"blue\"\x7d" =
        some "hair: red\neyes: blue" := by
  refine ⟨by decide, by decide, by decide, by decide⟩

/-! ## The orchestrator `ImageGeneratorAgent.run` (`main.py` lines 35–131) -/

/-- The start log (`main.py` lines 55–59). -/
def startLog (task_id : String) : TaskLog :=
  ⟨task_id, "Starting image generation...", Level.info, none⟩

/-- The validation-failure log (`main.py` lines 82–87). -/
def noDataLog (task_id : String) : TaskLog :=
  ⟨task_id, "No character data provided.", Level.error, some AgentExecutionStatus.Failed.value⟩

/-- The completion log (`main.py` lines 114–119). -/
def doneLog (task_id : String) : TaskLog :=
  ⟨task_id, "Image generation and upload to IPFS completed.", Level.info,
    some AgentExecutionStatus.Completed.value⟩

/-- The error log of the `except Exception` handler (`main.py` lines 125–130):
`f'Error during image generation: \x7be\x7d'`. -/
def genErrorLog (task_id msg : String) : TaskLog :=
  ⟨task_id, "Error during image generation: " ++ msg, Level.error,
    some AgentExecutionStatus.Failed.value⟩

/-- The argument record of the `update_step` call (`main.py` lines 99–111). -/
def successUpdate (data : EventData) (url : String) : StepUpdate :=
  ⟨data.did, data.task_id, data.step_id, AgentExecutionStatus.Completed.value,
    "Image generated and uploaded to IPFS", true, [url]⟩

/-- The `except Exception` handler (`main.py` lines 121–131): one error log
carrying the caught message, itself capable of raising. `nLogs` counts the
log calls already issued. -/
def handleException (env : Env) (task_id : String) (acc : List Call) (nLogs : Nat)
    (e : Exc) : RunResult :=
  match env.logResult nLogs with
  | Except.error e2 => ⟨acc ++ [Call.log (genErrorLog task_id e.message)], Except.error e2⟩
  | Except.ok _ => ⟨acc ++ [Call.log (genErrorLog task_id e.message)], Except.ok ()⟩

/-- The `try` block (`main.py` lines 90–119): generate, upload, update, log
completion; any raise transfers to `handleException`. -/
def tryBlock (env : Env) (data : EventData) (step : Step) (prompt : String) : RunResult :=
  match env.genResult with
  | Except.error e =>
    handleException env step.task_id
      [Call.log (startLog step.task_id), Call.generate prompt] 1 e
  | Except.ok image =>
    match env.uploadResult image (data.task_id ++ ".png") with
    | Except.error e =>
      handleException env step.task_id
        [Call.log (startLog step.task_id), Call.generate prompt,
         Call.upload (data.task_id ++ ".png")] 1 e
    | Except.ok url =>
      match env.updateResult with
      | Except.error e =>
        handleException env step.task_id
          [Call.log (startLog step.task_id), Call.generate prompt,
           Call.upload (data.task_id ++ ".png"), Call.update (successUpdate data url)] 1 e
      | Except.ok _ =>
        match env.logResult 1 with
        | Except.error e =>
          handleException env step.task_id
            [Call.log (startLog step.task_id), Call.generate prompt,
             Call.upload (data.task_id ++ ".png"), Call.update (successUpdate data url),
             Call.log (doneLog step.task_id)] 2 e
        | Except.ok _ =>
          ⟨[Call.log (startLog step.task_id), Call.generate prompt,
            Call.upload (data.task_id ++ ".png"), Call.update (successUpdate data url),
            Call.log (doneLog step.task_id)], Except.ok ()⟩

/-- The validation-failure path (`main.py` lines 80–88): one error log, then
return. -/
def noDataPath (env : Env) (task_id : String) : RunResult :=
  match env.logResult 1 with
  | Except.error e =>
    ⟨[Call.log (startLog task_id), Call.log (noDataLog task_id)], Except.error e⟩
  | Except.ok _ =>
    ⟨[Call.log (startLog task_id), Call.log (noDataLog task_id)], Except.ok ()⟩

/-- Processing of a Pending step (`main.py` lines 54–131): start log,
normalization, falsiness check (`if not character_prompt:` — `None` and the
empty string both fail it), then the `try` block. -/
def runPending (env : Env) (data : EventData) (step : Step) : RunResult :=
  match env.logResult 0 with
  | Except.error e => ⟨[Call.log (startLog step.task_id)], Except.error e⟩
  | Except.ok _ =>
    match normalizeInput (step.input_query.getD "") with
    | none => noDataPath env step.task_id
    | some prompt =>
      if prompt = "" then noDataPath env step.task_id
      else tryBlock env data step prompt

/-- `ImageGeneratorAgent.run` (`main.py` lines 35–131): fetch the step, skip
it silently unless Pending, otherwise process it. -/
def run (env : Env) (data : EventData) : RunResult :=
  match env.getStep data.step_id with
  | Except.error e => ⟨[], Except.error e⟩
  | Except.ok step =>
    if step.step_status = AgentExecutionStatus.Pending.value then runPending env data step
    else ⟨[], Except.ok ()⟩

/-! ## Trace observations -/

/-- Is this call a `log_task` call? -/
def Call.isLogCall : Call → Bool
  | .log _ => true
  | _ => false

/-- Is this call an `update_step` call? -/
def Call.isUpdateCall : Call → Bool
  | .update _ => true
  | _ => false

/-- Is this call a `generate_image` invocation? -/
def Call.isGenerateCall : Call → Bool
  | .generate _ => true
  | _ => false

/-- Is this call an `upload_image_and_get_url` invocation? -/
def Call.isUploadCall : Call → Bool
  | .upload _ => true
  | _ => false

/-- The log entries issued along a trace, in order. -/
def logEntries (t : List Call) : List TaskLog :=
  t.filterMap fun c => match c with | .log l => some l | _ => none

/-- The step updates issued along a trace, in order. -/
def updateEntries (t : List Call) : List StepUpdate :=
  t.filterMap fun c => match c with | .update u => some u | _ => none

/-- Is this log entry an error-level entry? -/
def TaskLog.isError (l : TaskLog) : Bool :=
  match l.level with
  | Level.error => true
  | Level.info => false

/-- The error-level log entries of a trace. -/
def errorLogEntries (t : List Call) : List TaskLog :=
  (logEntries t).filter TaskLog.isError

/-- Is this call a terminal completion update carrying non-empty artifacts? -/
def Call.isCompletionUpdate : Call → Bool
  | .update u =>
    decide (u.step_status = AgentExecutionStatus.Completed.value) && !u.output_artifacts.isEmpty
  | _ => false

/-- Is this call an error-level log? -/
def Call.isErrorLog : Call → Bool
  | .log l => l.isError
  | _ => false

/-! ## Helper lemmas -/

/-- The exception handler appends exactly one error log to the trace. -/
theorem handleException_trace (env : Env) (tid : String) (acc : List Call) (n : Nat) (e : Exc) :
    (handleException env tid acc n e).trace = acc ++ [Call.log (genErrorLog tid e.message)] := by
  unfold handleException
  cases env.logResult n <;> rfl

/-- The validation-failure path issues the start log and the no-data log. -/
theorem noDataPath_trace (env : Env) (tid : String) :
    (noDataPath env tid).trace = [Call.log (startLog tid), Call.log (noDataLog tid)] := by
  unfold noDataPath
  cases env.logResult 1 <;> rfl

/-- When the log call of the exception handler succeeds, the handler returns
normally. -/
theorem handleException_ok (env : Env) (tid : String) (acc : List Call) (n : Nat) (e : Exc)
    (h : env.logResult n = Except.ok ()) :
    handleException env tid acc n e =
      ⟨acc ++ [Call.log (genErrorLog tid e.message)], Except.ok ()⟩ := by
  unfold handleException
  rw [h]

/-- When its log call succeeds, the validation-failure path returns normally. -/
theorem noDataPath_ok (env : Env) (tid : String) (h : env.logResult 1 = Except.ok ()) :
    noDataPath env tid =
      ⟨[Call.log (startLog tid), Call.log (noDataLog tid)], Except.ok ()⟩ := by
  unfold noDataPath
  rw [h]

/-! ## Claims -/

/-- C1: for every Pending step whose input normalizes to a non-empty
description, when generation succeeds and upload succeeds returning URL `u`,
`run` makes exactly two log calls (the start info log and the completion info
log with `task_status=Completed`) and exactly one step update call with
`step_status=Completed`, `is_last=true`, `output_artifacts=[u]` and a
human-readable success output, the update being issued before the completion
log. -/
theorem run_happy_path (env : Env) (data : EventData) (step : Step) (p u : String) (img : Nat)
    (hstep : env.getStep data.step_id = Except.ok step)
    (hpend : step.step_status = AgentExecutionStatus.Pending.value)
    (hnorm : normalizeInput (step.input_query.getD "") = some p)
    (hne : p ≠ "")
    (hgen : env.genResult = Except.ok img)
    (hup : env.uploadResult img (data.task_id ++ ".png") = Except.ok u)
    (hlog : ∀ n, env.logResult n = Except.ok ())
    (hupd : env.updateResult = Except.ok ()) :
    run env data =
      ⟨[Call.log (startLog step.task_id), Call.generate p,
        Call.upload (data.task_id ++ ".png"), Call.update (successUpdate data u),
        Call.log (doneLog step.task_id)], Except.ok ()⟩
    ∧ logEntries (run env data).trace = [startLog step.task_id, doneLog step.task_id]
    ∧ updateEntries (run env data).trace = [successUpdate data u]
    ∧ (successUpdate data u).step_status = AgentExecutionStatus.Completed.value
    ∧ (successUpdate data u).is_last = true
    ∧ (successUpdate data u).output_artifacts = [u]
    ∧ (successUpdate data u).output = "Image generated and uploaded to IPFS"
    ∧ (doneLog step.task_id).task_status = some AgentExecutionStatus.Completed.value := by
  have h1 : run env data =
      ⟨[Call.log (startLog step.task_id), Call.generate p,
        Call.upload (data.task_id ++ ".png"), Call.update (successUpdate data u),
        Call.log (doneLog step.task_id)], Except.ok ()⟩ := by
    unfold run runPending tryBlock
    simp [hstep, hpend, hnorm, hne, hgen, hup, hupd, hlog]
  refine ⟨h1, ?_, ?_, rfl, rfl, rfl, rfl, rfl⟩ <;> rw [h1] <;> rfl

/-- C2: for every Pending step with a non-empty normalized description, if
generation or upload raises, `run` makes exactly one error log call whose
message contains the caught error's message with `task_status=Failed`, makes
zero step update calls, and lets no exception escape (the gateway log calls
themselves succeeding). -/
theorem run_collaborator_failure (env : Env) (data : EventData) (step : Step) (p : String)
    (e : Exc)
    (hstep : env.getStep data.step_id = Except.ok step)
    (hpend : step.step_status = AgentExecutionStatus.Pending.value)
    (hnorm : normalizeInput (step.input_query.getD "") = some p)
    (hne : p ≠ "")
    (hlog : ∀ n, env.logResult n = Except.ok ())
    (hfail : env.genResult = Except.error e ∨
      ∃ img, env.genResult = Except.ok img ∧
        env.uploadResult img (data.task_id ++ ".png") = Except.error e) :
    errorLogEntries (run env data).trace = [genErrorLog step.task_id e.message]
    ∧ (genErrorLog step.task_id e.message).message =
        "Error during image generation: " ++ e.message
    ∧ (genErrorLog step.task_id e.message).task_status = some AgentExecutionStatus.Failed.value
    ∧ updateEntries (run env data).trace = []
    ∧ (run env data).outcome = Except.ok () := by
  rcases hfail with hg | ⟨img, hg, hu⟩
  · have h1 : run env data =
        ⟨[Call.log (startLog step.task_id), Call.generate p,
          Call.log (genErrorLog step.task_id e.message)], Except.ok ()⟩ := by
      unfold run runPending tryBlock
      simp [hstep, hpend, hnorm, hne, hg, hlog, handleException_ok]
    refine ⟨?_, rfl, rfl, ?_, ?_⟩ <;> rw [h1] <;> rfl
  · have h1 : run env data =
        ⟨[Call.log (startLog step.task_id), Call.generate p,
          Call.upload (data.task_id ++ ".png"),
          Call.log (genErrorLog step.task_id e.message)], Except.ok ()⟩ := by
      unfold run runPending tryBlock
      simp [hstep, hpend, hnorm, hne, hg, hu, hlog, handleException_ok]
    refine ⟨?_, rfl, rfl, ?_, ?_⟩ <;> rw [h1] <;> rfl

/-- C3: for every step whose fetched `step_status` is not Pending, `run`
returns without making any log, update, generation or upload call. -/
theorem run_nonpending_noop (env : Env) (data : EventData) (step : Step)
    (hstep : env.getStep data.step_id = Except.ok step)
    (hnp : step.step_status ≠ AgentExecutionStatus.Pending.value) :
    run env data = ⟨[], Except.ok ()⟩
    ∧ logEntries (run env data).trace = []
    ∧ updateEntries (run env data).trace = []
    ∧ (run env data).trace.filter Call.isGenerateCall = []
    ∧ (run env data).trace.filter Call.isUploadCall = [] := by
  have h1 : run env data = ⟨[], Except.ok ()⟩ := by
    unfold run
    simp [hstep, hnp]
  refine ⟨h1, ?_, ?_, ?_, ?_⟩ <;> rw [h1] <;> rfl

/-- C4: a JSON-shaped payload that fails to parse normalizes to the null
description without raising, and for every Pending step whose normalized
description is null or empty, `run` emits exactly one error log with message
"No character data provided." and `task_status=Failed`, makes zero step
update calls, and invokes neither generation nor upload. -/
theorem run_validation_failure (env : Env) (data : EventData) (step : Step)
    (hstep : env.getStep data.step_id = Except.ok step)
    (hpend : step.step_status = AgentExecutionStatus.Pending.value)
    (hlog : ∀ n, env.logResult n = Except.ok ())
    (hval : normalizeInput (step.input_query.getD "") = none ∨
            normalizeInput (step.input_query.getD "") = some "") :
    (∀ s : String, isJsonShaped s = true → parseFlatJson s = none → normalizeInput s = none)
    ∧ run env data =
        ⟨[Call.log (startLog step.task_id), Call.log (noDataLog step.task_id)], Except.ok ()⟩
    ∧ errorLogEntries (run env data).trace = [noDataLog step.task_id]
    ∧ (noDataLog step.task_id).message = "No character data provided."
    ∧ (noDataLog step.task_id).task_status = some AgentExecutionStatus.Failed.value
    ∧ updateEntries (run env data).trace = []
    ∧ (run env data).trace.filter Call.isGenerateCall = []
    ∧ (run env data).trace.filter Call.isUploadCall = [] := by
  have habs : ∀ s : String, isJsonShaped s = true → parseFlatJson s = none →
      normalizeInput s = none := by
    intro s h1 h2
    unfold normalizeInput
    rw [h1, h2]
    rfl
  have h1 : run env data =
      ⟨[Call.log (startLog step.task_id), Call.log (noDataLog step.task_id)], Except.ok ()⟩ := by
    unfold run runPending
    rcases hval with hv | hv <;> simp [hstep, hpend, hv, hlog, noDataPath_ok]
  refine ⟨habs, h1, ?_, rfl, rfl, ?_, ?_, ?_⟩ <;> rw [h1] <;> rfl

/-- C10: for every Pending step whose `input_query` is absent (defaulting to
the empty string) or equals the JSON text "\x7b\x7d" (parsing to the empty
object, which renders as the empty description), `run` takes the same
validation-failure path as a parse failure: the "No character data provided."
error log with `task_status=Failed`, zero step update calls, and no escaping
exception. -/
theorem run_empty_input_validation (env : Env) (data : EventData) (step : Step)
    (hstep : env.getStep data.step_id = Except.ok step)
    (hpend : step.step_status = AgentExecutionStatus.Pending.value)
    (hlog : ∀ n, env.logResult n = Except.ok ())
    (hinput : step.input_query = none ∨ step.input_query = some "\x7b\x7d") :
    parseFlatJson "\x7b\x7d" = some []
    ∧ renderPairs [] = ""
    ∧ run env data =
        ⟨[Call.log (startLog step.task_id), Call.log (noDataLog step.task_id)], Except.ok ()⟩
    ∧ errorLogEntries (run env data).trace = [noDataLog step.task_id]
    ∧ (noDataLog step.task_id).message = "No character data provided."
    ∧ (noDataLog step.task_id).task_status = some AgentExecutionStatus.Failed.value
    ∧ updateEntries (run env data).trace = []
    ∧ (run env data).outcome = Except.ok () := by
  have hnorm : normalizeInput (step.input_query.getD "") = some "" := by
    rcases hinput with hi | hi <;> rw [hi] <;> decide
  have h1 : run env data =
      ⟨[Call.log (startLog step.task_id), Call.log (noDataLog step.task_id)], Except.ok ()⟩ := by
    unfold run runPending
    simp [hstep, hpend, hnorm, hlog, noDataPath_ok]
  refine ⟨by decide, rfl, h1, ?_, rfl, rfl, ?_, ?_⟩ <;> rw [h1] <;> rfl

/-! ## Concrete environments for the witnesses and counterexamples -/

/-- A Pending step with a free-form description. -/
def happyStep : Step := ⟨"t1", "Pending", some "a knight in silver armor"⟩

/-- All collaborators succeed; upload returns the example URL. -/
def happyEnv : Env :=
  ⟨fun _ => Except.ok happyStep, Except.ok 7,
   fun _ _ => Except.ok "https://example/cid123", fun _ => Except.ok (), Except.ok ()⟩

/-- The event payload of the happy-path witness. -/
def happyData : EventData := ⟨"s1", "t1", "d1"⟩

theorem run_happy_path_witness :
    run happyEnv happyData =
      ⟨[Call.log (startLog happyStep.task_id), Call.generate "a knight in silver armor",
        Call.upload (happyData.task_id ++ ".png"),
        Call.update (successUpdate happyData "https://example/cid123"),
        Call.log (doneLog happyStep.task_id)], Except.ok ()⟩
    ∧ logEntries (run happyEnv happyData).trace =
        [startLog happyStep.task_id, doneLog happyStep.task_id]
    ∧ updateEntries (run happyEnv happyData).trace =
        [successUpdate happyData "https://example/cid123"]
    ∧ (successUpdate happyData "https://example/cid123").step_status =
        AgentExecutionStatus.Completed.value
    ∧ (successUpdate happyData "https://example/cid123").is_last = true
    ∧ (successUpdate happyData "https://example/cid123").output_artifacts =
        ["https://example/cid123"]
    ∧ (successUpdate happyData "https://example/cid123").output =
        "Image generated and uploaded to IPFS"
    ∧ (doneLog happyStep.task_id).task_status = some AgentExecutionStatus.Completed.value :=
  run_happy_path happyEnv happyData happyStep "a knight in silver armor"
    "https://example/cid123" 7 rfl rfl (by decide) (by decide) rfl rfl (fun _ => rfl) rfl

/-- A Pending step whose generation will fail. -/
def genFailStep : Step := ⟨"t2", "Pending", some "a knight"⟩

/-- The generation capability raises; the gateway works. -/
def genFailEnv : Env :=
  ⟨fun _ => Except.ok genFailStep, Except.error (Exc.genError "CUDA out of memory"),
   fun _ _ => Except.ok "unused", fun _ => Except.ok (), Except.ok ()⟩

/-- The event payload of the generation-failure witness. -/
def genFailData : EventData := ⟨"s2", "t2", "d2"⟩

theorem run_collaborator_failure_witness :
    errorLogEntries (run genFailEnv genFailData).trace =
      [genErrorLog genFailStep.task_id "CUDA out of memory"]
    ∧ (genErrorLog genFailStep.task_id "CUDA out of memory").message =
        "Error during image generation: " ++ "CUDA out of memory"
    ∧ (genErrorLog genFailStep.task_id "CUDA out of memory").task_status =
        some AgentExecutionStatus.Failed.value
    ∧ updateEntries (run genFailEnv genFailData).trace = []
    ∧ (run genFailEnv genFailData).outcome = Except.ok () :=
  run_collaborator_failure genFailEnv genFailData genFailStep "a knight"
    (Exc.genError "CUDA out of memory") rfl rfl (by decide) (by decide) (fun _ => rfl)
    (Or.inl rfl)

/-- A step the gateway reports as Completed rather than Pending. -/
def doneStep : Step := ⟨"t3", "Completed", some "x"⟩

/-- The environment of the no-op witness. -/
def doneEnv : Env :=
  ⟨fun _ => Except.ok doneStep, Except.ok 0, fun _ _ => Except.ok "u",
   fun _ => Except.ok (), Except.ok ()⟩

/-- The event payload of the no-op witness. -/
def doneData : EventData := ⟨"s3", "t3", "d3"⟩

theorem run_nonpending_noop_witness :
    run doneEnv doneData = ⟨[], Except.ok ()⟩
    ∧ logEntries (run doneEnv doneData).trace = []
    ∧ updateEntries (run doneEnv doneData).trace = []
    ∧ (run doneEnv doneData).trace.filter Call.isGenerateCall = []
    ∧ (run doneEnv doneData).trace.filter Call.isUploadCall = [] :=
  run_nonpending_noop doneEnv doneData doneStep rfl (by decide)

/-- A Pending step whose input is JSON-shaped but malformed. -/
def badJsonStep : Step := ⟨"t4", "Pending", some "\x7bnot valid json\x7d"⟩

/-- The environment of the malformed-input witness. -/
def badJsonEnv : Env :=
  ⟨fun _ => Except.ok badJsonStep, Except.ok 0, fun _ _ => Except.ok "u",
   fun _ => Except.ok (), Except.ok ()⟩

/-- The event payload of the malformed-input witness. -/
def badJsonData : EventData := ⟨"s4", "t4", "d4"⟩

theorem run_validation_failure_witness :
    (∀ s : String, isJsonShaped s = true → parseFlatJson s = none → normalizeInput s = none)
    ∧ run badJsonEnv badJsonData =
        ⟨[Call.log (startLog badJsonStep.task_id), Call.log (noDataLog badJsonStep.task_id)],
          Except.ok ()⟩
    ∧ errorLogEntries (run badJsonEnv badJsonData).trace = [noDataLog badJsonStep.task_id]
    ∧ (noDataLog badJsonStep.task_id).message = "No character data provided."
    ∧ (noDataLog badJsonStep.task_id).task_status = some AgentExecutionStatus.Failed.value
    ∧ updateEntries (run badJsonEnv badJsonData).trace = []
    ∧ (run badJsonEnv badJsonData).trace.filter Call.isGenerateCall = []
    ∧ (run badJsonEnv badJsonData).trace.filter Call.isUploadCall = [] :=
  run_validation_failure badJsonEnv badJsonData badJsonStep rfl rfl (fun _ => rfl)
    (Or.inl (by decide))

/-- A Pending step whose `input_query` field is absent. -/
def absentInputStep : Step := ⟨"t10", "Pending", none⟩

/-- The environment of the absent-input witness. -/
def absentInputEnv : Env :=
  ⟨fun _ => Except.ok absentInputStep, Except.ok 0, fun _ _ => Except.ok "u",
   fun _ => Except.ok (), Except.ok ()⟩

/-- The event payload of the absent-input witness. -/
def absentInputData : EventData := ⟨"s10", "t10", "d10"⟩

theorem run_empty_input_validation_witness :
    parseFlatJson "\x7b\x7d" = some []
    ∧ renderPairs [] = ""
    ∧ run absentInputEnv absentInputData =
        ⟨[Call.log (startLog absentInputStep.task_id),
          Call.log (noDataLog absentInputStep.task_id)], Except.ok ()⟩
    ∧ errorLogEntries (run absentInputEnv absentInputData).trace =
        [noDataLog absentInputStep.task_id]
    ∧ (noDataLog absentInputStep.task_id).message = "No character data provided."
    ∧ (noDataLog absentInputStep.task_id).task_status = some AgentExecutionStatus.Failed.value
    ∧ updateEntries (run absentInputEnv absentInputData).trace = []
    ∧ (run absentInputEnv absentInputData).outcome = Except.ok () :=
  run_empty_input_validation absentInputEnv absentInputData absentInputStep rfl rfl
    (fun _ => rfl) (Or.inl rfl)

/-- A Pending step used to exhibit a swallowed update-call `ProtocolError`. -/
def updFailStep : Step := ⟨"t5", "Pending", some "a knight"⟩

/-- Generation and upload succeed but the gateway's `update_step` raises a
`ProtocolError`; the log calls work. -/
def updFailEnv : Env :=
  ⟨fun _ => Except.ok updFailStep, Except.ok 7,
   fun _ _ => Except.ok "https://example/cid123", fun _ => Except.ok (),
   Except.error (Exc.protocolError "gateway down")⟩

/-- The event payload of the swallowed-update-error scenario. -/
def updFailData : EventData := ⟨"s5", "t5", "d5"⟩

/-- C5 counterexample: the step update call raises a `ProtocolError`, yet
`run` returns normally — the error is caught by the generic `except
Exception` handler and converted into an error log, so it does not propagate
out of the orchestrator's entry point as the claim requires. -/
theorem run_update_protocol_error_swallowed :
    updFailEnv.updateResult = Except.error (Exc.protocolError "gateway down")
    ∧ (run updFailEnv updFailData).outcome = Except.ok ()
    ∧ errorLogEntries (run updFailEnv updFailData).trace =
        [genErrorLog "t5" "gateway down"] :=
  ⟨rfl, rfl, rfl⟩

/-- C5 (amended): a `ProtocolError` raised by the step read, by the start
log, or by any log call issued outside the `try` block propagates uncaught
out of `run`; but a `ProtocolError` raised by the step update call or by the
completion log call is caught by the generic exception handler, converted
into one error log, and does not propagate. -/
theorem run_protocol_error_paths (env : Env) (data : EventData) (m : String) :
    (env.getStep data.step_id = Except.error (Exc.protocolError m) →
      run env data = ⟨[], Except.error (Exc.protocolError m)⟩)
    ∧ (∀ step, env.getStep data.step_id = Except.ok step →
        step.step_status = AgentExecutionStatus.Pending.value →
        env.logResult 0 = Except.error (Exc.protocolError m) →
        run env data =
          ⟨[Call.log (startLog step.task_id)], Except.error (Exc.protocolError m)⟩)
    ∧ (∀ step, env.getStep data.step_id = Except.ok step →
        step.step_status = AgentExecutionStatus.Pending.value →
        env.logResult 0 = Except.ok () →
        (normalizeInput (step.input_query.getD "") = none ∨
          normalizeInput (step.input_query.getD "") = some "") →
        env.logResult 1 = Except.error (Exc.protocolError m) →
        run env data =
          ⟨[Call.log (startLog step.task_id), Call.log (noDataLog step.task_id)],
            Except.error (Exc.protocolError m)⟩)
    ∧ (∀ step p img u, env.getStep data.step_id = Except.ok step →
        step.step_status = AgentExecutionStatus.Pending.value →
        (∀ n, env.logResult n = Except.ok ()) →
        normalizeInput (step.input_query.getD "") = some p → p ≠ "" →
        env.genResult = Except.ok img →
        env.uploadResult img (data.task_id ++ ".png") = Except.ok u →
        env.updateResult = Except.error (Exc.protocolError m) →
        (run env data).outcome = Except.ok ()
        ∧ errorLogEntries (run env data).trace = [genErrorLog step.task_id m])
    ∧ (∀ step p img u, env.getStep data.step_id = Except.ok step →
        step.step_status = AgentExecutionStatus.Pending.value →
        env.logResult 0 = Except.ok () →
        env.logResult 1 = Except.error (Exc.protocolError m) →
        env.logResult 2 = Except.ok () →
        normalizeInput (step.input_query.getD "") = some p → p ≠ "" →
        env.genResult = Except.ok img →
        env.uploadResult img (data.task_id ++ ".png") = Except.ok u →
        env.updateResult = Except.ok () →
        (run env data).outcome = Except.ok ()
        ∧ errorLogEntries (run env data).trace = [genErrorLog step.task_id m]) := by
  refine ⟨?_, ?_, ?_, ?_, ?_⟩
  · intro h
    unfold run
    simp [h]
  · intro step hstep hpend hl0
    unfold run runPending
    simp [hstep, hpend, hl0]
  · intro step hstep hpend hl0 hval hl1
    unfold run runPending noDataPath
    rcases hval with hv | hv <;> simp [hstep, hpend, hl0, hv, hl1]
  · intro step p img u hstep hpend hlog hnorm hne hgen hup hupd
    have h1 : run env data =
        ⟨[Call.log (startLog step.task_id), Call.generate p,
          Call.upload (data.task_id ++ ".png"),
          Call.update (successUpdate data u),
          Call.log (genErrorLog step.task_id m)], Except.ok ()⟩ := by
      unfold run runPending tryBlock
      simp [hstep, hpend, hnorm, hne, hgen, hup, hupd, hlog, handleException_ok,
        Exc.message]
    constructor
    · rw [h1]
    · rw [h1]
      rfl
  · intro step p img u hstep hpend hl0 hl1 hl2 hnorm hne hgen hup hupd
    have h1 : run env data =
        ⟨[Call.log (startLog step.task_id), Call.generate p,
          Call.upload (data.task_id ++ ".png"),
          Call.update (successUpdate data u),
          Call.log (doneLog step.task_id),
          Call.log (genErrorLog step.task_id m)], Except.ok ()⟩ := by
      unfold run runPending tryBlock
      simp [hstep, hpend, hnorm, hne, hgen, hup, hupd, hl0, hl1, hl2,
        handleException_ok, Exc.message]
    constructor
    · rw [h1]
    · rw [h1]
      rfl

theorem run_protocol_error_paths_witness :
    (run updFailEnv updFailData).outcome = Except.ok ()
    ∧ errorLogEntries (run updFailEnv updFailData).trace =
        [genErrorLog updFailStep.task_id "gateway down"] :=
  (run_protocol_error_paths updFailEnv updFailData "gateway down").2.2.2.1 updFailStep
    "a knight" 7 "https://example/cid123" rfl rfl (fun _ => rfl) (by decide) (by decide)
    rfl rfl rfl

/-- The `try` block always records exactly one generation invocation. -/
theorem tryBlock_generate_calls (env : Env) (data : EventData) (step : Step) (p : String) :
    (tryBlock env data step p).trace.filter Call.isGenerateCall = [Call.generate p] := by
  unfold tryBlock
  cases hgen : env.genResult with
  | error e =>
    simp [hgen, handleException_trace, Call.isGenerateCall, List.filter]
  | ok img =>
    cases hup : env.uploadResult img (data.task_id ++ ".png") with
    | error e => simp [hgen, hup, handleException_trace, Call.isGenerateCall, List.filter]
    | ok url =>
      cases hupd : env.updateResult with
      | error e =>
        simp [hgen, hup, hupd, handleException_trace, Call.isGenerateCall, List.filter]
      | ok u =>
        cases hl1 : env.logResult 1 with
        | error e =>
          simp [hgen, hup, hupd, hl1, handleException_trace, Call.isGenerateCall, List.filter]
        | ok u2 => simp [hgen, hup, hupd, hl1, Call.isGenerateCall, List.filter]

/-- C6: per execution of `run` the generation capability is invoked at most
once; and a Pending step processed with a working gateway reaches exactly one
of the two terminal outcomes — one completion update with non-empty
`output_artifacts` and no error log, or no completion update and one error
log — never both and never neither. -/
theorem run_invariants (env : Env) (data : EventData) :
    ((run env data).trace.filter Call.isGenerateCall).length ≤ 1
    ∧ (∀ step, env.getStep data.step_id = Except.ok step →
        step.step_status = AgentExecutionStatus.Pending.value →
        (∀ n, env.logResult n = Except.ok ()) →
        env.updateResult = Except.ok () →
        (((run env data).trace.countP Call.isCompletionUpdate = 1
            ∧ (run env data).trace.countP Call.isErrorLog = 0)
          ∨ ((run env data).trace.countP Call.isCompletionUpdate = 0
            ∧ (run env data).trace.countP Call.isErrorLog = 1))) := by
  constructor
  · unfold run
    cases hg : env.getStep data.step_id with
    | error e => simp
    | ok step =>
      by_cases hs : step.step_status = AgentExecutionStatus.Pending.value
      · simp only [hs, if_true]
        unfold runPending
        cases hl0 : env.logResult 0 with
        | error e => simp [hl0, Call.isGenerateCall, List.filter]
        | ok u =>
          cases hn : normalizeInput (step.input_query.getD "") with
          | none => simp [hl0, hn, noDataPath_trace, Call.isGenerateCall, List.filter]
          | some p =>
            by_cases hp : p = ""
            · simp [hl0, hn, hp, noDataPath_trace, Call.isGenerateCall, List.filter]
            · simp [hl0, hn, hp, tryBlock_generate_calls]
      · simp [hs]
  · intro step hstep hpend hlog hupd
    have hrun : run env data = runPending env data step := by
      unfold run
      simp [hstep, hpend]
    rw [hrun]
    unfold runPending
    cases hn : normalizeInput (step.input_query.getD "") with
    | none =>
      right
      rw [hlog 0]
      simp only [hn]
      rw [noDataPath_ok env step.task_id (hlog 1)]
      simp [Call.isCompletionUpdate, Call.isErrorLog, startLog, noDataLog, TaskLog.isError,
        List.countP_cons, List.countP_nil]
    | some p =>
      by_cases hp : p = ""
      · right
        rw [hlog 0]
        simp only [hn, hp, if_true]
        rw [noDataPath_ok env step.task_id (hlog 1)]
        simp [Call.isCompletionUpdate, Call.isErrorLog, startLog, noDataLog, TaskLog.isError,
          List.countP_cons, List.countP_nil]
      · rw [hlog 0]
        simp only [hn, hp, if_false, ite_false]
        unfold tryBlock
        cases hgen : env.genResult with
        | error e =>
          right
          simp only [hgen]
          rw [handleException_ok env step.task_id _ 1 e (hlog 1)]
          simp [Call.isCompletionUpdate, Call.isErrorLog, startLog, genErrorLog,
            TaskLog.isError, List.countP_cons, List.countP_nil]
        | ok img =>
          cases hup : env.uploadResult img (data.task_id ++ ".png") with
          | error e =>
            right
            simp only [hgen, hup]
            rw [handleException_ok env step.task_id _ 1 e (hlog 1)]
            simp [Call.isCompletionUpdate, Call.isErrorLog, startLog, genErrorLog,
              TaskLog.isError, List.countP_cons, List.countP_nil]
          | ok url =>
            left
            simp only [hgen, hup]
            rw [hupd, hlog 1]
            simp [Call.isCompletionUpdate, Call.isErrorLog, startLog, doneLog, successUpdate,
              TaskLog.isError, List.countP_cons, List.countP_nil]

/-- A Pending step for the invariant witness. -/
def invStep : Step := ⟨"t6", "Pending", some "a wizard"⟩

/-- All collaborators succeed in the invariant witness environment. -/
def invEnv : Env :=
  ⟨fun _ => Except.ok invStep, Except.ok 3, fun _ _ => Except.ok "https://example/cid6",
   fun _ => Except.ok (), Except.ok ()⟩

/-- The event payload of the invariant witness. -/
def invData : EventData := ⟨"s6", "t6", "d6"⟩

theorem run_invariants_witness :
    ((run invEnv invData).trace.filter Call.isGenerateCall).length ≤ 1
    ∧ (((run invEnv invData).trace.countP Call.isCompletionUpdate = 1
          ∧ (run invEnv invData).trace.countP Call.isErrorLog = 0)
        ∨ ((run invEnv invData).trace.countP Call.isCompletionUpdate = 0
          ∧ (run invEnv invData).trace.countP Call.isErrorLog = 1)) :=
  ⟨(run_invariants invEnv invData).1,
   (run_invariants invEnv invData).2 invStep rfl rfl (fun _ => rfl) rfl⟩

/-! ## Rendering and re-parsing (normalization round trip) -/

/-- `(s ++ t).data` is the concatenation of the character lists. -/
theorem strData_append (s t : String) : (s ++ t).data = s.data ++ t.data := by
  cases s
  cases t
  rfl

/-- The characters of the separator `": "`. -/
theorem colonSpace_data : (": " : String).data = [':', ' '] := rfl

/-- The characters of the newline string. -/
theorem newline_data : ("\n" : String).data = ['\n'] := rfl

/-- The characters produced by `String.intercalate.go`. -/
theorem intercalate_go_data (sep : String) (as : List String) :
    ∀ acc : String,
      (String.intercalate.go acc sep as).data
        = acc.data ++ (as.map (fun a => sep.data ++ a.data)).flatten := by
  induction as with
  | nil =>
    intro acc
    simp [String.intercalate.go]
  | cons a as ih =>
    intro acc
    simp only [String.intercalate.go]
    rw [ih]
    simp [strData_append, List.append_assoc]

/-- The characters of a one-pair rendering. -/
theorem renderPairs_single_data (k v : String) :
    (renderPairs [(k, v)]).data = k.data ++ ':' :: ' ' :: v.data := by
  unfold renderPairs
  simp only [List.map_cons, List.map_nil, String.intercalate]
  simp [String.intercalate.go, strData_append, colonSpace_data]

/-- The characters of a multi-pair rendering: first line, newline, rest. -/
theorem renderPairs_cons_data (k v : String) (r : String × String)
    (rs : List (String × String)) :
    (renderPairs ((k, v) :: r :: rs)).data
      = (k.data ++ ':' :: ' ' :: v.data) ++ '\n' :: (renderPairs (r :: rs)).data := by
  unfold renderPairs
  simp only [List.map_cons, String.intercalate]
  rw [intercalate_go_data, intercalate_go_data]
  simp [strData_append, colonSpace_data, newline_data, List.append_assoc]

/-- A rendering of at least one pair is never the empty string. -/
theorem renderPairs_ne_nil (q : String × String) (qs : List (String × String)) :
    (renderPairs (q :: qs)).data ≠ [] := by
  obtain ⟨k, v⟩ := q
  cases qs with
  | nil =>
    rw [renderPairs_single_data]
    simp
  | cons r rs =>
    rw [renderPairs_cons_data]
    simp

/-- Modelled from the spec: split the rendered text at each newline. -/
def splitLines : List Char → List (List Char)
  | [] => [[]]
  | c :: rest =>
    if c = '\n' then [] :: splitLines rest
    else
      match splitLines rest with
      | [] => [[c]]
      | l :: ls => (c :: l) :: ls

/-- One-step unfolding of `splitLines`. -/
theorem splitLines_cons (c : Char) (rest : List Char) :
    splitLines (c :: rest) =
      if c = '\n' then [] :: splitLines rest
      else
        match splitLines rest with
        | [] => [[c]]
        | l :: ls => (c :: l) :: ls := rfl

/-- A newline-free text is a single line. -/
theorem splitLines_no_newline (cs : List Char) (h : '\n' ∉ cs) : splitLines cs = [cs] := by
  induction cs with
  | nil => rfl
  | cons c rest ih =>
    have hc : ¬(c = '\n') := fun hh => h (hh ▸ List.mem_cons_self c rest)
    have hr : '\n' ∉ rest := fun hh => h (List.mem_cons_of_mem c hh)
    rw [splitLines_cons, if_neg hc, ih hr]

/-- Splitting after a newline-free first line peels that line off. -/
theorem splitLines_append (xs ys : List Char) (h : '\n' ∉ xs) :
    splitLines (xs ++ '\n' :: ys) = xs :: splitLines ys := by
  induction xs with
  | nil =>
    simp [splitLines_cons]
  | cons c rest ih =>
    have hc : ¬(c = '\n') := fun hh => h (hh ▸ List.mem_cons_self c rest)
    have hr : '\n' ∉ rest := fun hh => h (List.mem_cons_of_mem c hh)
    rw [List.cons_append, splitLines_cons, if_neg hc, ih hr]

/-- Modelled from the spec: split a rendered line at its first `": "`
occurrence into key and value (all of it the key when none occurs). -/
def splitKV : List Char → List Char × List Char
  | [] => ([], [])
  | [c] => ([c], [])
  | c1 :: c2 :: rest =>
    if c1 = ':' ∧ c2 = ' ' then ([], rest)
    else ((c1 :: (splitKV (c2 :: rest)).1), (splitKV (c2 :: rest)).2)

/-- One-step unfolding of `splitKV` on two or more characters. -/
theorem splitKV_cons₂ (c1 c2 : Char) (rest : List Char) :
    splitKV (c1 :: c2 :: rest) =
      if c1 = ':' ∧ c2 = ' ' then ([], rest)
      else ((c1 :: (splitKV (c2 :: rest)).1), (splitKV (c2 :: rest)).2) := rfl

/-- Does the text contain the separator `": "`? -/
def hasColonSpace : List Char → Bool
  | c1 :: c2 :: rest => (c1 == ':' && c2 == ' ') || hasColonSpace (c2 :: rest)
  | _ => false

/-- One-step unfolding of `hasColonSpace` on two or more characters. -/
theorem hasColonSpace_cons₂ (c1 c2 : Char) (rest : List Char) :
    hasColonSpace (c1 :: c2 :: rest) =
      ((c1 == ':' && c2 == ' ') || hasColonSpace (c2 :: rest)) := rfl

/-- A separator-free key followed by `": "` and a value splits back into the
key and the value. -/
theorem splitKV_append (xs ys : List Char) (h : hasColonSpace xs = false) :
    splitKV (xs ++ ':' :: ' ' :: ys) = (xs, ys) := by
  induction xs with
  | nil =>
    rw [List.nil_append, splitKV_cons₂, if_pos ⟨rfl, rfl⟩]
  | cons c rest ih =>
    cases rest with
    | nil =>
      have hinner : splitKV (':' :: ' ' :: ys) = ([], ys) := by
        rw [splitKV_cons₂, if_pos ⟨rfl, rfl⟩]
      have hcd : ¬(c = ':' ∧ ':' = ' ') := by
        intro hh
        exact absurd hh.2 (by decide)
      rw [List.cons_append, List.nil_append, splitKV_cons₂, if_neg hcd, hinner]
    | cons d rest2 =>
      by_cases hcd : c = ':' ∧ d = ' '
      · exfalso
        rw [hasColonSpace_cons₂, hcd.1, hcd.2] at h
        simp at h
      · have hx : hasColonSpace (d :: rest2) = false := by
          cases hx2 : hasColonSpace (d :: rest2) with
          | false => rfl
          | true =>
            exfalso
            rw [hasColonSpace_cons₂, hx2] at h
            simp at h
        have hih := ih hx
        rw [List.cons_append] at hih
        rw [List.cons_append, List.cons_append, splitKV_cons₂, if_neg hcd]
        rw [hih]

/-- Modelled from the spec: one rendered line re-parses by splitting at its
first `": "` into the key and the value. -/
def reparseLine (l : List Char) : String × String :=
  (⟨(splitKV l).1⟩, ⟨(splitKV l).2⟩)

/-- Modelled from the spec: re-parsing the rendered description splits it
into lines and each line at its first `": "`, recovering an ordered
key-value list; the empty rendering yields the empty object. -/
def reparseRendered (s : String) : List (String × String) :=
  if s.data = [] then []
  else (splitLines s.data).map reparseLine

/-- C8 counterexample: a flat object whose value contains a newline renders
to "a: x\ny", whose rendered lines re-parse to two entries — the round trip
fails on it, refuting the claim as stated over all flat objects with
string-convertible values. -/
theorem reparse_render_newline_cex :
    renderPairs [("a", "x\ny")] = "a: x\ny"
    ∧ reparseRendered "a: x\ny" = [("a", "x"), ("y", "")]
    ∧ reparseRendered (renderPairs [("a", "x\ny")]) ≠ [("a", "x\ny")] := by
  refine ⟨by decide, by decide, by decide⟩

/-- C8 (amended): for every flat object whose keys contain no ": " separator
and whose keys and values contain no newline, rendering one "key: value"
line per entry in insertion order joined by newlines and then re-parsing the
rendered lines recovers the same keys in the same order with the same
values. -/
theorem reparse_render_roundtrip (pairs : List (String × String))
    (hsep : ∀ kv ∈ pairs, hasColonSpace kv.1.data = false)
    (hnl : ∀ kv ∈ pairs, '\n' ∉ kv.1.data ∧ '\n' ∉ kv.2.data) :
    reparseRendered (renderPairs pairs) = pairs := by
  induction pairs with
  | nil => rfl
  | cons kv rest ih =>
    obtain ⟨k, v⟩ := kv
    have hk : hasColonSpace k.data = false := hsep (k, v) (List.mem_cons_self _ _)
    have hnlk : '\n' ∉ k.data := (hnl (k, v) (List.mem_cons_self _ _)).1
    have hnlv : '\n' ∉ v.data := (hnl (k, v) (List.mem_cons_self _ _)).2
    have hline : '\n' ∉ (k.data ++ ':' :: ' ' :: v.data) := by
      intro hmem
      rcases List.mem_append.mp hmem with hmem | hmem
      · exact hnlk hmem
      · rcases List.mem_cons.mp hmem with hmem | hmem
        · exact absurd hmem (by decide)
        · rcases List.mem_cons.mp hmem with hmem | hmem
          · exact absurd hmem (by decide)
          · exact hnlv hmem
    have hlinekv : reparseLine (k.data ++ ':' :: ' ' :: v.data) = (k, v) := by
      unfold reparseLine
      rw [splitKV_append k.data v.data hk]
    cases rest with
    | nil =>
      unfold reparseRendered
      rw [renderPairs_single_data, if_neg (by simp)]
      rw [splitLines_no_newline _ hline, List.map_cons, List.map_nil, hlinekv]
    | cons r rs =>
      have hsep2 : ∀ kv ∈ r :: rs, hasColonSpace kv.1.data = false :=
        fun kv hm => hsep kv (List.mem_cons_of_mem _ hm)
      have hnl2 : ∀ kv ∈ r :: rs, '\n' ∉ kv.1.data ∧ '\n' ∉ kv.2.data :=
        fun kv hm => hnl kv (List.mem_cons_of_mem _ hm)
      have ihr := ih hsep2 hnl2
      unfold reparseRendered at ihr
      rw [if_neg (renderPairs_ne_nil r rs)] at ihr
      unfold reparseRendered
      rw [renderPairs_cons_data, if_neg (by simp)]
      rw [splitLines_append _ _ hline, List.map_cons, hlinekv, ihr]

theorem reparse_render_roundtrip_witness :
    reparseRendered (renderPairs [("hair", "red"), ("eyes", "blue")]) =
      [("hair", "red"), ("eyes", "blue")] :=
  reparse_render_roundtrip [("hair", "red"), ("eyes", "blue")] (by decide) (by decide)

/-! ## Classification of the raw payload (structured vs free-form) -/

/-- Python's `str.strip()`: drop whitespace from both ends. -/
def pyStrip (s : String) : String :=
  ⟨((s.data.dropWhile isJsonWs).reverse.dropWhile isJsonWs).reverse⟩

/-- Modelled from the spec: the classification as the spec words it — a
payload is structured exactly when its *trimmed* form starts with an opening
brace and ends with a closing brace. -/
def isJsonShapedSpec (q : String) : Bool :=
  pyStartsWith (pyStrip q) "\x7b" && pyEndsWith (pyStrip q) "\x7d"

/-- Modelled from the spec: the Input Normalizer with the spec's trimmed
classification, to compare against `normalizeInput` from the source. -/
def normalizeInputSpec (q : String) : Option String :=
  if isJsonShapedSpec q then
    match parseFlatJson q with
    | some d => some (renderPairs d)
    | none => none
  else
    some q

/-- C9 counterexample: the payload " \x7b\x7d" has a trimmed form that starts
with a brace and ends with a brace, so the claim classifies it as structured;
the code's untrimmed sniff classifies it as free-form and passes it through
unchanged instead of attempting a JSON parse. -/
theorem classification_trim_cex :
    isJsonShapedSpec " \x7b\x7d" = true
    ∧ isJsonShaped " \x7b\x7d" = false
    ∧ normalizeInput " \x7b\x7d" = some " \x7b\x7d"
    ∧ normalizeInputSpec " \x7b\x7d" = some ""
    ∧ normalizeInput " \x7b\x7d" ≠ normalizeInputSpec " \x7b\x7d" := by
  refine ⟨by decide, by decide, by decide, by decide, by decide⟩

/-- C9 (amended): the normalizer classifies a payload as structured (and
attempts a JSON parse) exactly when the *untrimmed* payload starts with an
opening brace and ends with a closing brace; every other payload passes
through unchanged; the spec's trimmed classification agrees whenever the
payload equals its trimmed form. -/
theorem normalize_classification (q : String) :
    (isJsonShaped q = false → normalizeInput q = some q)
    ∧ (isJsonShaped q = true →
        normalizeInput q = Option.map renderPairs (parseFlatJson q))
    ∧ (pyStrip q = q → normalizeInput q = normalizeInputSpec q) := by
  refine ⟨?_, ?_, ?_⟩
  · intro h
    unfold normalizeInput
    rw [h]
    rfl
  · intro h
    unfold normalizeInput
    rw [h]
    cases parseFlatJson q <;> rfl
  · intro h
    unfold normalizeInput normalizeInputSpec isJsonShapedSpec isJsonShaped
    rw [h]

theorem normalize_classification_witness :
    normalizeInput "a knight" = some "a knight"
    ∧ normalizeInput "\x7b\x7d" = Option.map renderPairs (parseFlatJson "\x7b\x7d")
    ∧ normalizeInput "abc" = normalizeInputSpec "abc" :=
  ⟨(normalize_classification "a knight").1 (by decide),
   (normalize_classification "\x7b\x7d").2.1 (by decide),
   (normalize_classification "abc").2.2 (by decide)⟩
